import Mathlib

/-! Verification of the memory-mapped-file core declared in
src/storage/connect/maputil.h.  The header declares the MEMMAP record — a
mapped pointer plus a 64-bit extent split into two 32-bit DWORD halves —
and the two operations CreateFileMap and CloseMemMap.  The record layout
and the operation signatures are embedded from the header; the operation
bodies live in an implementation file that is not among the sources, so
they are modelled from the specification (sections 4.1, 4.2, 6 and 7) and
the claims are settled against that model. -/

/-- Modulus of a DWORD: a DWORD is an unsigned 32-bit integer. -/
def dwordMod : Nat := 2 ^ 32

/-- Low 32-bit half of a 64-bit byte count. -/
def lowHalf (s : Nat) : Nat := s % dwordMod

/-- High 32-bit half of a 64-bit byte count. -/
def highHalf (s : Nat) : Nat := s / dwordMod % dwordMod

/-- Reconstruction of the extent from its two halves, following the spec
formula for the invariant: length == (high << 32) | low. -/
def reconstructLen (lenL lenH : Nat) : Nat := (lenH <<< 32) ||| lenL

/-- Value actually carried by an unsigned size_t of w bits when a byte
count n is passed to it: n truncated modulo 2 ^ w. -/
def toSizeT (w n : Nat) : Nat := n % 2 ^ w

/-- Embedded from maputil.h: the MEMMAP record.  memory is the mapped
pointer, modelled as a natural address with 0 standing for null; lenL and
lenH are the two 32-bit DWORD halves of the 64-bit extent. -/
structure MEMMAP where
  memory : Nat
  lenL : Nat
  lenH : Nat
deriving DecidableEq

/-- Modelled from the spec: the MODE argument of CreateFileMap.  Its
defining header is not among the sources; section 6 lists the four access
modes that must be representable. -/
inductive MODE where
  | ReadOnly
  | ReadWrite
  | CreateOrTruncate
  | Append
deriving DecidableEq

/-- Modelled from the spec: the error kinds of section 7 that Create
writes into the diagnostic context on failure. -/
inductive ErrKind where
  | NotFound
  | AccessDenied
  | TooLarge
  | MapFailed
  | IOError
deriving DecidableEq

/-- Error classification code attached to each error kind. -/
def errCode : ErrKind → Nat
  | .NotFound => 1
  | .AccessDenied => 2
  | .TooLarge => 3
  | .MapFailed => 4
  | .IOError => 5

/-- Descriptive message attached to each error kind. -/
def errMsg : ErrKind → String
  | .NotFound => "file not found"
  | .AccessDenied => "access denied"
  | .TooLarge => "file too large to map"
  | .MapFailed => "mapping the file failed"
  | .IOError => "input output error"

/-- Pair written into the diagnostic context for an error kind. -/
def errEntry (k : ErrKind) : String × Nat := (errMsg k, errCode k)

/-- Modelled from the spec: an established virtual-memory mapping — the
path of the backing file, the protection mode the mapping was given, and
the mapped bytes. -/
structure Mapping where
  mpath : String
  mmode : MODE
  mbytes : List Nat
deriving DecidableEq

/-- Modelled from the spec: the world the two operations act on — the
file system (path to byte content), the caller-owned diagnostic context
holding the most recent error entry, the table of active mappings keyed
by address, the open file handles, and two allocation counters.  Mapped
addresses and handles are allocated strictly above 0, so 0 is never a
valid mapped address (it models the null pointer). -/
structure Sys where
  fs : List (String × List Nat)
  ctx : Option (String × Nat)
  maps : List (Nat × Mapping)
  handles : List Nat
  nextAddr : Nat
  nextHandle : Nat
deriving DecidableEq

/-- Access modes under which the underlying file may be written. -/
def writable : MODE → Bool
  | .ReadOnly => false
  | _ => true

/-- Access modes that truncate an existing file at open time. -/
def truncates : MODE → Bool
  | .CreateOrTruncate => true
  | _ => false

/-- File-system update: set the content stored under a path. -/
def setFile (fs : List (String × List Nat)) (p : String) (c : List Nat) :
    List (String × List Nat) :=
  (p, c) :: fs.eraseP (fun q => q.1 == p)

/-- Diagnostic-context write performed by a failing Create: the context
receives the descriptive message and the error classification. -/
def setErr (g : Sys) (k : ErrKind) : Sys :=
  { g with ctx := some (errEntry k) }

/-- Modelled from the spec: steps 1 to 3 of section 4.1 — open the file
according to the mode; if it is absent and creation is not both requested
and permitted by a writable mode, fail with NotFound; a truncating mode
empties an existing file; the byte content to be mapped is returned. -/
def openFile (g : Sys) (path : String) (mode : MODE) (cim : Bool) :
    Option (Sys × List Nat) :=
  match g.fs.lookup path with
  | none =>
      if cim && writable mode then
        some ({ g with fs := setFile g.fs path [] }, [])
      else
        none
  | some content =>
      if truncates mode then
        some ({ g with fs := setFile g.fs path [] }, [])
      else
        some (g, content)

/-- Modelled from the spec: the body of CreateFileMap is not among the
sources (maputil.h only declares it), so section 4.1 is followed: open or
create the file per the mode, fail with TooLarge when the extent exceeds
the platform's addressable range of w bits, otherwise establish the
mapping at a fresh non-null address, split the extent into the two DWORD
halves of the MEMMAP, and return the fresh open handle.  The caller's
MEMMAP argument plays the role of the out parameter: it is returned
untouched on failure and replaced on success.  Failure is signalled by
returning no handle, after writing the error entry to the context. -/
def CreateFileMap (w : Nat) (g : Sys) (path : String) (mode : MODE)
    (cim : Bool) (mm : MEMMAP) : Sys × Option Nat × MEMMAP :=
  match openFile g path mode cim with
  | none => (setErr g .NotFound, none, mm)
  | some (g1, content) =>
      if 2 ^ w ≤ content.length then
        (setErr g1 .TooLarge, none, mm)
      else
        ({ g1 with
            maps := (g1.nextAddr + 1, ⟨path, mode, content⟩) :: g1.maps,
            handles := (g1.nextHandle + 1) :: g1.handles,
            nextAddr := g1.nextAddr + 1,
            nextHandle := g1.nextHandle + 1 },
         some (g1.nextHandle + 1),
         ⟨g1.nextAddr + 1, lowHalf content.length, highHalf content.length⟩)

/-- Modelled from the spec: the body of CloseMemMap is not among the
sources (maputil.h only declares it), so section 4.2 is followed: a zero
length is a no-op returning true; otherwise the given range is unmapped,
a writable mapping's bytes being flushed to the backing file, returning
true, and false is returned when the OS-level unmap fails (no such
mapping).  The context is never written and no handle is closed. -/
def CloseMemMap (g : Sys) (memory : Nat) (dwSize : Nat) : Sys × Bool :=
  if dwSize = 0 then
    (g, true)
  else
    match g.maps.lookup memory with
    | none => (g, false)
    | some mp =>
        ({ g with
            fs := if writable mp.mmode then setFile g.fs mp.mpath mp.mbytes
                  else g.fs,
            maps := g.maps.eraseP (fun q => q.1 == memory) },
         true)

/-- Modelled from the spec: a byte store through a mapped region.  A
read-only mapping rejects the write at the OS level (a fault, modelled as
a false result with the world unchanged); a writable mapping accepts an
in-range write, which updates the mapped bytes. -/
def writeMapByte (g : Sys) (addr off b : Nat) : Sys × Bool :=
  match g.maps.lookup addr with
  | none => (g, false)
  | some mp =>
      if writable mp.mmode && decide (off < mp.mbytes.length) then
        ({ g with
            maps := (addr, { mp with mbytes := mp.mbytes.set off b }) ::
              g.maps.eraseP (fun q => q.1 == addr) },
         true)
      else
        (g, false)

/-! ### Arithmetic facts about the split size representation -/

theorem reconstructLen_eq_add {lenL : Nat} (lenH : Nat) (h : lenL < dwordMod) :
    reconstructLen lenL lenH = dwordMod * lenH + lenL := by
  unfold reconstructLen dwordMod at *
  rw [Nat.shiftLeft_eq, Nat.mul_comm]
  exact (Nat.mul_add_lt_is_or h lenH).symm

theorem lowHalf_lt (s : Nat) : lowHalf s < dwordMod :=
  Nat.mod_lt _ (by norm_num [dwordMod])

theorem reconstruct_split (s : Nat) (h : s < 2 ^ 64) :
    reconstructLen (lowHalf s) (highHalf s) = s := by
  rw [reconstructLen_eq_add _ (lowHalf_lt s)]
  unfold lowHalf highHalf dwordMod
  have hdiv : s / 2 ^ 32 < 2 ^ 32 := by
    apply Nat.div_lt_of_lt_mul
    calc s < 2 ^ 64 := h
      _ = 2 ^ 32 * 2 ^ 32 := by norm_num
  rw [Nat.mod_eq_of_lt hdiv]
  exact Nat.div_add_mod s (2 ^ 32)

theorem reconstruct_split_of_lt {w s : Nat} (hw : w ≤ 64) (h : s < 2 ^ w) :
    reconstructLen (lowHalf s) (highHalf s) = s :=
  reconstruct_split s (lt_of_lt_of_le h (Nat.pow_le_pow_right (by norm_num) hw))

/-! ### Characterization of the modelled operations -/

theorem openFile_frame (g : Sys) (path : String) (mode : MODE) (cim : Bool)
    (g1 : Sys) (content : List Nat)
    (h : openFile g path mode cim = some (g1, content)) :
    g1.maps = g.maps ∧ g1.handles = g.handles ∧ g1.ctx = g.ctx ∧
    g1.nextAddr = g.nextAddr ∧ g1.nextHandle = g.nextHandle := by
  unfold openFile at h
  split at h
  · split at h
    · simp only [Option.some.injEq, Prod.mk.injEq] at h
      obtain ⟨h1, -⟩ := h
      subst h1
      exact ⟨rfl, rfl, rfl, rfl, rfl⟩
    · exact Option.noConfusion h
  · split at h
    · simp only [Option.some.injEq, Prod.mk.injEq] at h
      obtain ⟨h1, -⟩ := h
      subst h1
      exact ⟨rfl, rfl, rfl, rfl, rfl⟩
    · simp only [Option.some.injEq, Prod.mk.injEq] at h
      obtain ⟨h1, -⟩ := h
      subst h1
      exact ⟨rfl, rfl, rfl, rfl, rfl⟩

theorem create_success_spec (w : Nat) (g : Sys) (path : String) (mode : MODE)
    (cim : Bool) (mm : MEMMAP) (g' : Sys) (hdl : Nat) (mm' : MEMMAP)
    (h : CreateFileMap w g path mode cim mm = (g', some hdl, mm')) :
    ∃ g1 content,
      openFile g path mode cim = some (g1, content) ∧
      content.length < 2 ^ w ∧
      hdl = g1.nextHandle + 1 ∧
      mm' = ⟨g1.nextAddr + 1, lowHalf content.length,
        highHalf content.length⟩ ∧
      g' = { g1 with
        maps := (g1.nextAddr + 1, ⟨path, mode, content⟩) :: g1.maps,
        handles := (g1.nextHandle + 1) :: g1.handles,
        nextAddr := g1.nextAddr + 1,
        nextHandle := g1.nextHandle + 1 } := by
  unfold CreateFileMap at h
  split at h
  · exact absurd h (by simp)
  · rename_i g1 content heq
    refine ⟨g1, content, heq, ?_⟩
    split at h
    · exact absurd h (by simp)
    · rename_i hlen
      simp only [Prod.mk.injEq, Option.some.injEq] at h
      obtain ⟨hg, hh, hm⟩ := h
      exact ⟨Nat.lt_of_not_le hlen, hh.symm, hm.symm, hg.symm⟩

theorem create_failure_spec (w : Nat) (g : Sys) (path : String) (mode : MODE)
    (cim : Bool) (mm : MEMMAP) (g' : Sys) (mm' : MEMMAP)
    (h : CreateFileMap w g path mode cim mm = (g', none, mm')) :
    mm' = mm ∧ g'.maps = g.maps ∧ g'.handles = g.handles ∧
    (g'.ctx = some (errEntry .NotFound) ∨
      g'.ctx = some (errEntry .TooLarge)) := by
  unfold CreateFileMap at h
  split at h
  · simp only [Prod.mk.injEq] at h
    obtain ⟨hg, -, hm⟩ := h
    subst hg
    exact ⟨hm.symm, rfl, rfl, Or.inl rfl⟩
  · rename_i g1 content heq
    obtain ⟨f1, f2, -, -, -⟩ := openFile_frame g path mode cim g1 content heq
    split at h
    · simp only [Prod.mk.injEq] at h
      obtain ⟨hg, -, hm⟩ := h
      subst hg
      exact ⟨hm.symm, f1, f2, Or.inr rfl⟩
    · exact absurd h (by simp)

/-! ### Claim theorems -/

/-- C1: for every file size representable in 64 bits, splitting it into
the two 32-bit halves stored in a MEMMAP and reconstructing the length as
(high << 32) | low yields exactly the original size; and every MEMMAP
produced by a successful CreateFileMap on a platform of word width at
most 64 bits satisfies the invariant: the reconstructed length equals
the byte length of the mapping it describes. -/
theorem c1_roundtrip_size :
    (∀ s : Nat, s < 2 ^ 64 → reconstructLen (lowHalf s) (highHalf s) = s) ∧
    (∀ w g path mode cim mm g' hdl mm', w ≤ 64 →
      CreateFileMap w g path mode cim mm = (g', some hdl, mm') →
      (g'.maps.lookup mm'.memory).map (fun mp => mp.mbytes.length) =
        some (reconstructLen mm'.lenL mm'.lenH)) := by
  refine ⟨reconstruct_split, ?_⟩
  intro w g path mode cim mm g' hdl mm' hw h
  obtain ⟨g1, content, -, hlen, -, hm, hg⟩ :=
    create_success_spec w g path mode cim mm g' hdl mm' h
  subst hg
  subst hm
  simp only [List.lookup_cons_self, Option.map_some']
  rw [reconstruct_split_of_lt hw hlen]

/-- Witness for C1 at size 2 ^ 33 + 5 and at a concrete one-byte file. -/
theorem c1_roundtrip_size_witness :
    ((2 ^ 33 + 5 : Nat) < 2 ^ 64 ∧
      reconstructLen (lowHalf (2 ^ 33 + 5)) (highHalf (2 ^ 33 + 5)) =
        2 ^ 33 + 5) ∧
    ((64 : Nat) ≤ 64 ∧
      CreateFileMap 64 ⟨[("f", [7])], none, [], [], 0, 0⟩ "f" .ReadOnly
          false ⟨0, 0, 0⟩ =
        (⟨[("f", [7])], none, [(1, ⟨"f", .ReadOnly, [7]⟩)], [1], 1, 1⟩,
          some 1, ⟨1, 1, 0⟩)) ∧
    ((Sys.mk [("f", [7])] none [(1, ⟨"f", .ReadOnly, [7]⟩)] [1] 1 1).maps.lookup
        (MEMMAP.mk 1 1 0).memory).map (fun mp => mp.mbytes.length) =
      some (reconstructLen (MEMMAP.mk 1 1 0).lenL (MEMMAP.mk 1 1 0).lenH) :=
  ⟨⟨by norm_num, c1_roundtrip_size.1 _ (by norm_num)⟩,
   ⟨by norm_num, by rfl⟩,
   c1_roundtrip_size.2 64 ⟨[("f", [7])], none, [], [], 0, 0⟩ "f" .ReadOnly
     false ⟨0, 0, 0⟩ _ 1 ⟨1, 1, 0⟩ (by norm_num) (by rfl)⟩

/-- C5: with a length of zero, CloseMemMap is a no-op returning true for
every pointer value, the null pointer included. -/
theorem c5_zero_length_release (g : Sys) (memory : Nat) :
    CloseMemMap g memory 0 = (g, true) := by
  simp [CloseMemMap]

/-- C6: the only effect of CloseMemMap is the unmap itself — the
diagnostic context, the open handles and the allocation counters are
untouched even on failure, and the boolean result, true exactly when the
length is zero or the range is actually mapped, is the sole failure
signal. -/
theorem c6_release_frame (g : Sys) (memory dwSize : Nat) :
    (CloseMemMap g memory dwSize).1.ctx = g.ctx ∧
    (CloseMemMap g memory dwSize).1.handles = g.handles ∧
    (CloseMemMap g memory dwSize).1.nextAddr = g.nextAddr ∧
    (CloseMemMap g memory dwSize).1.nextHandle = g.nextHandle ∧
    ((CloseMemMap g memory dwSize).2 = true ↔
      dwSize = 0 ∨ (g.maps.lookup memory).isSome = true) := by
  by_cases h0 : dwSize = 0
  · simp [CloseMemMap, h0]
  · cases hl : g.maps.lookup memory
    · simp [CloseMemMap, h0, hl]
    · simp [CloseMemMap, h0, hl]

/-- C9: CloseMemMap takes the extent as a single native size_t while the
MEMMAP record stores it as two separate DWORD halves, so on a platform
whose size_t is 32 bits any MEMMAP with a nonzero high half describes an
extent that cannot be passed losslessly to CloseMemMap; in general the
extent survives the size_t truncation exactly when it fits in w bits. -/
theorem c9_sizet_narrowing :
    (∀ mm : MEMMAP, mm.lenL < dwordMod → mm.lenH < dwordMod →
      mm.lenH ≠ 0 →
      toSizeT 32 (reconstructLen mm.lenL mm.lenH) ≠
        reconstructLen mm.lenL mm.lenH) ∧
    (∀ w n : Nat, toSizeT w n = n ↔ n < 2 ^ w) := by
  constructor
  · intro mm hL hH hne
    rw [reconstructLen_eq_add mm.lenH hL]
    unfold dwordMod at hL hH ⊢
    unfold toSizeT
    intro hcontra
    rw [Nat.mul_add_mod, Nat.mod_eq_of_lt hL] at hcontra
    omega
  · intro w n
    unfold toSizeT
    constructor
    · intro h
      rw [← h]
      exact Nat.mod_lt _ (Nat.pow_pos (by norm_num))
    · exact Nat.mod_eq_of_lt

/-- Witness for C9: the MEMMAP with halves low 5, high 1 describes the
extent 2 ^ 32 + 5, which a 32-bit size_t cannot carry. -/
theorem c9_sizet_narrowing_witness :
    ((5 : Nat) < dwordMod ∧ (1 : Nat) < dwordMod ∧ (1 : Nat) ≠ 0 ∧
      toSizeT 32 (reconstructLen 5 1) ≠ reconstructLen 5 1) ∧
    (toSizeT 32 4294967301 = 4294967301 ↔ (4294967301 : Nat) < 2 ^ 32) :=
  ⟨⟨by norm_num [dwordMod], by norm_num [dwordMod], by norm_num,
    c9_sizet_narrowing.1 ⟨0, 5, 1⟩ (by norm_num [dwordMod])
      (by norm_num [dwordMod]) (by norm_num)⟩,
   c9_sizet_narrowing.2 32 4294967301⟩

/-- C10: CreateFileMap signals failure solely through the returned
handle; when no handle comes back, the caller-supplied MEMMAP is
returned exactly as it was passed in, so its fields carry no success
flag of their own and are meaningful only when the handle indicates
success. -/
theorem c10_handle_sole_success_signal (w : Nat) (g : Sys) (path : String)
    (mode : MODE) (cim : Bool) (mm : MEMMAP) (g' : Sys) (mm' : MEMMAP)
    (h : CreateFileMap w g path mode cim mm = (g', none, mm')) :
    mm' = mm :=
  (create_failure_spec w g path mode cim mm g' mm' h).1

/-- Witness for C10: a concrete failing call hands back the MEMMAP the
caller supplied. -/
theorem c10_handle_sole_success_signal_witness :
    CreateFileMap 64 ⟨[], none, [], [], 0, 0⟩ "f" .ReadOnly false
        ⟨5, 6, 7⟩ =
      (⟨[], some (errEntry .NotFound), [], [], 0, 0⟩, none, ⟨5, 6, 7⟩) ∧
    (MEMMAP.mk 5 6 7) = ⟨5, 6, 7⟩ :=
  ⟨by rfl,
   c10_handle_sole_success_signal 64 ⟨[], none, [], [], 0, 0⟩ "f" .ReadOnly
     false ⟨5, 6, 7⟩ ⟨[], some (errEntry .NotFound), [], [], 0, 0⟩
     ⟨5, 6, 7⟩ (by rfl)⟩

/-- C2: a CreateFileMap call that fails at any step leaves no resources
held — the mapping table and the open-handle list are exactly as before
the call and no handle reaches the caller — while the diagnostic context
receives a descriptive message plus an error classification; on success
the returned memory pointer is non-null and names a mapping valid for
exactly the reconstructed length in bytes. -/
theorem c2_create_no_partial_state (w : Nat) (g : Sys) (path : String)
    (mode : MODE) (cim : Bool) (mm : MEMMAP) (g' : Sys) (res : Option Nat)
    (mm' : MEMMAP) (hw : w ≤ 64)
    (h : CreateFileMap w g path mode cim mm = (g', res, mm')) :
    (res = none →
      g'.maps = g.maps ∧ g'.handles = g.handles ∧
      (g'.ctx = some (errEntry .NotFound) ∨
        g'.ctx = some (errEntry .TooLarge))) ∧
    (∀ hdl, res = some hdl →
      mm'.memory ≠ 0 ∧
      (g'.maps.lookup mm'.memory).map (fun mp => mp.mbytes.length) =
        some (reconstructLen mm'.lenL mm'.lenH)) := by
  constructor
  · intro hres
    subst hres
    exact (create_failure_spec w g path mode cim mm g' mm' h).2
  · intro hdl hres
    subst hres
    obtain ⟨g1, content, -, hlen, -, hm, hg⟩ :=
      create_success_spec w g path mode cim mm g' hdl mm' h
    subst hg
    subst hm
    refine ⟨Nat.succ_ne_zero _, ?_⟩
    simp only [List.lookup_cons_self, Option.map_some']
    rw [reconstruct_split_of_lt hw hlen]

/-- Witness for C2 at a concrete failing call: the mapping table and the
handle list come back unchanged and the context holds the NotFound
entry. -/
theorem c2_create_no_partial_state_witness :
    ((64 : Nat) ≤ 64 ∧
      CreateFileMap 64 ⟨[], none, [], [], 0, 0⟩ "f" .ReadOnly false
          ⟨5, 6, 7⟩ =
        (⟨[], some (errEntry .NotFound), [], [], 0, 0⟩, none,
          ⟨5, 6, 7⟩)) ∧
    ((Sys.mk [] (some (errEntry .NotFound)) [] [] 0 0).maps =
        (Sys.mk [] none [] [] 0 0).maps ∧
      (Sys.mk [] (some (errEntry .NotFound)) [] [] 0 0).handles =
        (Sys.mk [] none [] [] 0 0).handles ∧
      ((Sys.mk [] (some (errEntry .NotFound)) [] [] 0 0).ctx =
          some (errEntry .NotFound) ∨
        (Sys.mk [] (some (errEntry .NotFound)) [] [] 0 0).ctx =
          some (errEntry .TooLarge))) :=
  ⟨⟨by norm_num, by rfl⟩,
   (c2_create_no_partial_state 64 ⟨[], none, [], [], 0, 0⟩ "f" .ReadOnly
     false ⟨5, 6, 7⟩ ⟨[], some (errEntry .NotFound), [], [], 0, 0⟩ none
     ⟨5, 6, 7⟩ (by norm_num) (by rfl)).1 rfl⟩

/-- C3: on a path that does not exist, CreateFileMap with creation not
requested fails with the NotFound error, and with creation requested
under a writable mode it succeeds and yields a region of length 0. -/
theorem c3_create_if_missing (w : Nat) (g : Sys) (path : String)
    (mode : MODE) (mm : MEMMAP) (habs : g.fs.lookup path = none) :
    ((CreateFileMap w g path mode false mm).2.1 = none ∧
      (CreateFileMap w g path mode false mm).1.ctx =
        some (errEntry .NotFound)) ∧
    (writable mode = true →
      ((CreateFileMap w g path mode true mm).2.1).isSome = true ∧
      reconstructLen (CreateFileMap w g path mode true mm).2.2.lenL
        (CreateFileMap w g path mode true mm).2.2.lenH = 0) := by
  have hnot : ¬ 2 ^ w ≤ 0 := Nat.not_le.mpr (Nat.pow_pos (by norm_num))
  constructor
  · simp [CreateFileMap, openFile, habs, setErr]
  · intro hwr
    simp [CreateFileMap, openFile, habs, hwr, hnot, lowHalf, highHalf,
      reconstructLen, Nat.zero_shiftLeft]

/-- Witness for C3 on the empty file system: creation not requested
fails with NotFound, creation requested in read-write mode yields a
zero-length region. -/
theorem c3_create_if_missing_witness :
    (Sys.mk [] none [] [] 0 0).fs.lookup "f" = none ∧
    ((CreateFileMap 64 ⟨[], none, [], [], 0, 0⟩ "f" .ReadWrite false
          ⟨0, 0, 0⟩).2.1 = none ∧
      (CreateFileMap 64 ⟨[], none, [], [], 0, 0⟩ "f" .ReadWrite false
          ⟨0, 0, 0⟩).1.ctx = some (errEntry .NotFound)) ∧
    (((CreateFileMap 64 ⟨[], none, [], [], 0, 0⟩ "f" .ReadWrite true
          ⟨0, 0, 0⟩).2.1).isSome = true ∧
      reconstructLen
        (CreateFileMap 64 ⟨[], none, [], [], 0, 0⟩ "f" .ReadWrite true
          ⟨0, 0, 0⟩).2.2.lenL
        (CreateFileMap 64 ⟨[], none, [], [], 0, 0⟩ "f" .ReadWrite true
          ⟨0, 0, 0⟩).2.2.lenH = 0) :=
  ⟨rfl,
   (c3_create_if_missing 64 ⟨[], none, [], [], 0, 0⟩ "f" .ReadWrite
     ⟨0, 0, 0⟩ rfl).1,
   (c3_create_if_missing 64 ⟨[], none, [], [], 0, 0⟩ "f" .ReadWrite
     ⟨0, 0, 0⟩ rfl).2 rfl⟩

/-- C4: when the byte length of the opened file exceeds the addressable
extent of the w-bit platform, CreateFileMap fails with the distinct
TooLarge error written to the context and hands the caller's MEMMAP back
untouched instead of wrapping or truncating the size into it. -/
theorem c4_too_large (w : Nat) (g : Sys) (path : String) (mode : MODE)
    (cim : Bool) (mm : MEMMAP) (g1 : Sys) (content : List Nat)
    (hopen : openFile g path mode cim = some (g1, content))
    (hbig : 2 ^ w ≤ content.length) :
    CreateFileMap w g path mode cim mm =
      (setErr g1 .TooLarge, none, mm) := by
  simp [CreateFileMap, hopen, hbig]

/-- Witness for C4 on a 1-bit platform: a two-byte file exceeds the
addressable extent and Create fails with TooLarge, the MEMMAP
untouched. -/
theorem c4_too_large_witness :
    openFile ⟨[("f", [0, 0])], none, [], [], 0, 0⟩ "f" .ReadOnly false =
      some (⟨[("f", [0, 0])], none, [], [], 0, 0⟩, [0, 0]) ∧
    (2 : Nat) ^ 1 ≤ ([0, 0] : List Nat).length ∧
    CreateFileMap 1 ⟨[("f", [0, 0])], none, [], [], 0, 0⟩ "f" .ReadOnly
        false ⟨1, 2, 3⟩ =
      (setErr ⟨[("f", [0, 0])], none, [], [], 0, 0⟩ .TooLarge, none,
        ⟨1, 2, 3⟩) :=
  ⟨rfl, by norm_num,
   c4_too_large 1 ⟨[("f", [0, 0])], none, [], [], 0, 0⟩ "f" .ReadOnly
     false ⟨1, 2, 3⟩ ⟨[("f", [0, 0])], none, [], [], 0, 0⟩ [0, 0] rfl
     (by norm_num)⟩

/-- C7: a successful CreateFileMap leaves the diagnostic context exactly
as it was — the error entry is written only on failure, and prior
context state is neither consumed nor cleared by a success. -/
theorem c7_success_ctx_frame (w : Nat) (g : Sys) (path : String)
    (mode : MODE) (cim : Bool) (mm : MEMMAP) (g' : Sys) (hdl : Nat)
    (mm' : MEMMAP)
    (h : CreateFileMap w g path mode cim mm = (g', some hdl, mm')) :
    g'.ctx = g.ctx := by
  obtain ⟨g1, content, hop, -, -, -, hg⟩ :=
    create_success_spec w g path mode cim mm g' hdl mm' h
  subst hg
  exact (openFile_frame g path mode cim g1 content hop).2.2.1

/-- Witness for C7: a successful call leaves a stale context entry in
place. -/
theorem c7_success_ctx_frame_witness :
    CreateFileMap 64 ⟨[("f", [7])], some ("stale", 9), [], [], 0, 0⟩ "f"
        .ReadOnly false ⟨0, 0, 0⟩ =
      (⟨[("f", [7])], some ("stale", 9), [(1, ⟨"f", .ReadOnly, [7]⟩)],
          [1], 1, 1⟩, some 1, ⟨1, 1, 0⟩) ∧
    (Sys.mk [("f", [7])] (some ("stale", 9))
        [(1, ⟨"f", .ReadOnly, [7]⟩)] [1] 1 1).ctx =
      (Sys.mk [("f", [7])] (some ("stale", 9)) [] [] 0 0).ctx :=
  ⟨by rfl,
   c7_success_ctx_frame 64 ⟨[("f", [7])], some ("stale", 9), [], [], 0, 0⟩
     "f" .ReadOnly false ⟨0, 0, 0⟩
     ⟨[("f", [7])], some ("stale", 9), [(1, ⟨"f", .ReadOnly, [7]⟩)],
       [1], 1, 1⟩ 1 ⟨1, 1, 0⟩ (by rfl)⟩

/-- C8: a region mapped read-only rejects every attempted byte store —
the write faults, leaving the world unchanged — while a region mapped
read-write accepts an in-range store whose effect, after the region is
released, is visible to a fresh read-only mapping of the same file. -/
theorem c8_mode_enforcement (w : Nat) (g : Sys) (path : String)
    (cim : Bool) (mm : MEMMAP) (g' : Sys) (hdl : Nat) (mm' : MEMMAP)
    (hw : w ≤ 64) :
    (CreateFileMap w g path .ReadOnly cim mm = (g', some hdl, mm') →
      ∀ off b, writeMapByte g' mm'.memory off b = (g', false)) ∧
    (CreateFileMap w g path .ReadWrite cim mm = (g', some hdl, mm') →
      ∀ off b, off < reconstructLen mm'.lenL mm'.lenH →
        (writeMapByte g' mm'.memory off b).2 = true ∧
        (CloseMemMap (writeMapByte g' mm'.memory off b).1 mm'.memory
            (reconstructLen mm'.lenL mm'.lenH)).2 = true ∧
        ∀ mm2,
          ((CreateFileMap w
              (CloseMemMap (writeMapByte g' mm'.memory off b).1 mm'.memory
                (reconstructLen mm'.lenL mm'.lenH)).1
              path .ReadOnly false mm2).2.1).isSome = true ∧
          ((CreateFileMap w
              (CloseMemMap (writeMapByte g' mm'.memory off b).1 mm'.memory
                (reconstructLen mm'.lenL mm'.lenH)).1
              path .ReadOnly false mm2).1.maps.lookup
            ((CreateFileMap w
              (CloseMemMap (writeMapByte g' mm'.memory off b).1 mm'.memory
                (reconstructLen mm'.lenL mm'.lenH)).1
              path .ReadOnly false mm2).2.2.memory)).map
            (fun mp => mp.mbytes[off]?) = some (some b)) := by
  constructor
  · intro h off b
    obtain ⟨g1, content, -, -, -, hm, hg⟩ :=
      create_success_spec w g path .ReadOnly cim mm g' hdl mm' h
    subst hg
    subst hm
    simp [writeMapByte, writable]
  · intro h off b hoff
    obtain ⟨g1, content, -, hlen, -, hm, hg⟩ :=
      create_success_spec w g path .ReadWrite cim mm g' hdl mm' h
    subst hg
    subst hm
    rw [reconstruct_split_of_lt hw hlen] at hoff ⊢
    have hne0 : ¬ content.length = 0 := by omega
    have hnle : ¬ 2 ^ w ≤ content.length := Nat.not_le.mpr hlen
    refine ⟨?_, ?_, ?_⟩
    · simp [writeMapByte, writable, hoff]
    · simp [writeMapByte, CloseMemMap, writable, hoff, hne0,
        List.eraseP_cons_of_pos]
    · intro mm2
      constructor
      · simp [writeMapByte, CloseMemMap, CreateFileMap, openFile, writable,
          truncates, setFile, hoff, hne0, hnle, List.eraseP_cons_of_pos,
          List.length_set]
      · simp [writeMapByte, CloseMemMap, CreateFileMap, openFile, writable,
          truncates, setFile, hoff, hne0, hnle, List.eraseP_cons_of_pos,
          List.getElem?_set_self hoff, List.length_set]

/-- Witness for C8: on a two-byte read-write mapping, storing byte 9 at
offset 0 succeeds, releasing the region succeeds, and a fresh read-only
mapping of the same file shows the stored byte. -/
theorem c8_mode_enforcement_witness :
    ((64 : Nat) ≤ 64 ∧
      CreateFileMap 64 ⟨[("f", [7, 7])], none, [], [], 0, 0⟩ "f"
          .ReadWrite false ⟨0, 0, 0⟩ =
        (⟨[("f", [7, 7])], none, [(1, ⟨"f", .ReadWrite, [7, 7]⟩)], [1],
            1, 1⟩, some 1, ⟨1, 2, 0⟩) ∧
      (0 : Nat) < reconstructLen 2 0) ∧
    (writeMapByte ⟨[("f", [7, 7])], none,
        [(1, ⟨"f", .ReadWrite, [7, 7]⟩)], [1], 1, 1⟩ 1 0 9).2 = true ∧
    (CloseMemMap (writeMapByte ⟨[("f", [7, 7])], none,
          [(1, ⟨"f", .ReadWrite, [7, 7]⟩)], [1], 1, 1⟩ 1 0 9).1 1
        (reconstructLen 2 0)).2 = true ∧
    ((CreateFileMap 64 (CloseMemMap (writeMapByte ⟨[("f", [7, 7])], none,
            [(1, ⟨"f", .ReadWrite, [7, 7]⟩)], [1], 1, 1⟩ 1 0 9).1 1
          (reconstructLen 2 0)).1 "f" .ReadOnly false
        ⟨0, 0, 0⟩).2.1).isSome = true ∧
    ((CreateFileMap 64 (CloseMemMap (writeMapByte ⟨[("f", [7, 7])], none,
            [(1, ⟨"f", .ReadWrite, [7, 7]⟩)], [1], 1, 1⟩ 1 0 9).1 1
          (reconstructLen 2 0)).1 "f" .ReadOnly false
        ⟨0, 0, 0⟩).1.maps.lookup
      ((CreateFileMap 64 (CloseMemMap (writeMapByte ⟨[("f", [7, 7])], none,
            [(1, ⟨"f", .ReadWrite, [7, 7]⟩)], [1], 1, 1⟩ 1 0 9).1 1
          (reconstructLen 2 0)).1 "f" .ReadOnly false
        ⟨0, 0, 0⟩).2.2.memory)).map
      (fun mp => mp.mbytes[0]?) = some (some 9) := by
  have h := (c8_mode_enforcement 64 ⟨[("f", [7, 7])], none, [], [], 0, 0⟩
    "f" false ⟨0, 0, 0⟩
    ⟨[("f", [7, 7])], none, [(1, ⟨"f", .ReadWrite, [7, 7]⟩)], [1], 1, 1⟩
    1 ⟨1, 2, 0⟩ (by norm_num)).2 (by rfl) 0 9 (by decide)
  exact ⟨⟨by norm_num, by rfl, by decide⟩, h.1, h.2.1, h.2.2 ⟨0, 0, 0⟩⟩
